import Mathlib

/-!
Shallow embedding of the exam-taking and grading flow of the examportal
repository (React components over a Firestore-like document store), together
with theorems settling the frozen claims about the natural-language spec.

The repository contains two distinct `TakeExam` components (two variants of
the exam-attempt engine); definitions suffixed `V1` embed the first variant
(object answer map, `setDoc` with deterministic id) and definitions suffixed
`V2` embed the second variant (fixed-length answer array initialised to -1,
`addDoc` with a fresh id).  JS numbers are modelled as `Int`/`Nat`; the
non-numeric result of `Math.round(0/0 * 100)` (NaN) is modelled as `none`
in an `Option Nat`.
-/

namespace ExamPortal

/-- A question of an exam document, as produced by `CreateExam`
(`processedQuestions`): question text, option strings, zero-based index of
the correct option, point value, optional image/explanation strings. -/
structure Question where
  question : String
  options : List String
  correctAnswer : Int
  points : Nat
  imageUrl : String
  explanation : String
  deriving Repr, DecidableEq

/-- The fields of an exam document relevant to the attempt engine. -/
structure Exam where
  title : String
  timeLimit : Nat
  passingScore : Int
  isPublished : Bool
  shuffleQuestions : Bool
  allowReattempts : Bool
  questions : List Question
  createdBy : String
  deriving Repr, DecidableEq

/-- Answer state of the first TakeExam variant: the JS object
`answers = { [originalIndex]: answerIndex }`.  Updates prepend, lookups take
the most recent binding, matching last-write-wins object assignment. -/
abbrev AnswerMap : Type := List (Int × Int)

/-- Lookup `answers[i]` on the first variant's answer object; `none` models
JS `undefined` for an absent key. -/
def lookupAnswer (am : AnswerMap) (i : Int) : Option Int :=
  match am with
  | [] => none
  | (k, v) :: rest => if k = i then some v else lookupAnswer rest i

/-- The object-spread update `{ ...answers, [originalIndex]: answerIndex }`. -/
def insertAnswer (am : AnswerMap) (i v : Int) : AnswerMap :=
  (i, v) :: am

/-- The scoring loop of the first variant's `handleSubmit`:
`exam.questions.forEach((question, index) => { totalPoints += question.points;
if (answers[index] === question.correctAnswer) score += question.points })`.
Returns `(score, totalPoints)`; the index accumulator threads the forEach
index. -/
def scoreLoopV1 (am : AnswerMap) : List Question → Int → Nat × Nat
  | [], _ => (0, 0)
  | q :: rest, i =>
    let r := scoreLoopV1 am rest (i + 1)
    ((if lookupAnswer am i = some q.correctAnswer then q.points else 0) + r.1,
     q.points + r.2)

/-- `Math.round(x)` for nonnegative exact ratios: `round(100*s/t)` as
`⌊(100*s + 1/2 * t) / t⌋ = (200*s + t) / (2*t)` in natural division.
JS `Math.round` rounds half toward positive infinity, i.e. `⌊x + 1/2⌋`. -/
def roundPct (s t : Nat) : Nat :=
  (200 * s + t) / (2 * t)

/-- `Math.round((score / totalPoints) * 100)` of the first variant's
`handleSubmit`; `none` models the NaN produced by the unguarded `0 / 0`
when the exam's questions sum to zero points. -/
def finalScoreV1 (qs : List Question) (am : AnswerMap) : Option Nat :=
  let r := scoreLoopV1 am qs 0
  if r.2 = 0 then none else some (roundPct r.1 r.2)

/-- The scoring loop of the second variant's `handleSubmit`:
`answers.forEach((answer, index) => { const question = exam.questions[index];
if (answer === question.correctAnswer) score += question.points;
totalPoints += question.points })`.  The traversal is total only when
`answers` is no longer than `exam.questions` (otherwise the JS code throws
on `undefined.correctAnswer`); the claims instantiate it at equal lengths. -/
def scoreLoopV2 : List Int → List Question → Nat × Nat
  | a :: as, q :: restQ =>
    let r := scoreLoopV2 as restQ
    ((if a = q.correctAnswer then q.points else 0) + r.1, q.points + r.2)
  | _, _ => (0, 0)

/-- `Math.round((score / totalPoints) * 100)` of the second variant's
`handleSubmit`; `none` again models NaN for zero total points. -/
def finalScoreV2 (qs : List Question) (ans : List Int) : Option Nat :=
  let r := scoreLoopV2 ans qs
  if r.2 = 0 then none else some (roundPct r.1 r.2)

/-- Specification-side earned points (transcribed from the spec formula, not
from the code): `earnedPoints = Σ over questions [points if selectedOption ==
correctOptionIndex else 0]`, where `recorded i` is the answer recorded for
original question index `i`. -/
def earnedFrom (recorded : Int → Option Int) : List Question → Int → Nat
  | [], _ => 0
  | q :: rest, i =>
    (if recorded i = some q.correctAnswer then q.points else 0) +
      earnedFrom recorded rest (i + 1)

/-- Specification-side earned points of a whole question list. -/
def earnedPointsSpec (qs : List Question) (recorded : Int → Option Int) : Nat :=
  earnedFrom recorded qs 0

/-- Specification-side total points: `totalPoints = Σ question.points`. -/
def totalPointsSpec (qs : List Question) : Nat :=
  (qs.map Question.points).sum

/-- The answers recorded by the second variant's answer array: entry `i` of
the array (including the `-1` sentinel for unanswered questions). -/
def recordedOfList (ans : List Int) (i : Int) : Option Int :=
  if 0 ≤ i then ans.get? i.toNat else none

/-- The submission document written by the first variant's `handleSubmit`
(fields of `submissionData`; timestamps are outside the embedding). -/
structure SubmissionV1 where
  examId : String
  studentId : String
  teacherId : String
  answers : AnswerMap
  score : Option Nat
  timeSpent : Int
  flaggedQuestions : List Int
  bookmarkedQuestions : List Int
  isAutoSubmitted : Bool
  completedQuestions : Nat
  totalQuestions : Nat
  deriving DecidableEq

/-- The `submissionData` object built inside the first variant's
`handleSubmit`, from the exam, the answer object, and the `timeLeft` value
the handler reads: `score: Math.round((score / totalPoints) * 100)`,
`timeSpent: exam.timeLimit * 60 - timeLeft`,
`isAutoSubmitted: timeLeft === 0`, `completedQuestions:
Object.keys(answers).length` (number of distinct keys of the object). -/
def buildSubmissionV1 (examId uid : String) (exam : Exam) (am : AnswerMap)
    (timeLeft : Nat) (flagged bookmarked : List Int) : SubmissionV1 :=
  { examId := examId
    studentId := uid
    teacherId := exam.createdBy
    answers := am
    score := finalScoreV1 exam.questions am
    timeSpent := (exam.timeLimit * 60 : Int) - timeLeft
    flaggedQuestions := flagged
    bookmarkedQuestions := bookmarked
    isAutoSubmitted := timeLeft = 0
    completedQuestions := ((am.map Prod.fst).dedup).length
    totalQuestions := exam.questions.length }

/-- The submission document written by the second variant's `handleSubmit`. -/
structure SubmissionV2 where
  examId : String
  studentId : String
  teacherId : String
  answers : List Int
  score : Option Nat
  timeSpent : Int
  bookmarkedQuestions : List Nat
  flaggedQuestions : List Nat
  attemptNumber : Nat
  deriving DecidableEq

/-- The `submissionData` object built inside the second variant's
`handleSubmit`. -/
def buildSubmissionV2 (examId uid : String) (exam : Exam) (ans : List Int)
    (timeLeft : Nat) (bookmarked flagged : List Nat) (attemptNumber : Nat) :
    SubmissionV2 :=
  { examId := examId
    studentId := uid
    teacherId := exam.createdBy
    answers := ans
    score := finalScoreV2 exam.questions ans
    timeSpent := (exam.timeLimit * 60 : Int) - timeLeft
    bookmarkedQuestions := bookmarked
    flaggedQuestions := flagged
    attemptNumber := attemptNumber }

/-- A document collection keyed by document id, as a list of
(id, document) pairs in insertion order. -/
abbrev Store (α : Type) : Type := List (String × α)

/-- Firestore `setDoc(doc(db, coll, id), v)`: replaces the document at `id`
when it exists, otherwise creates it. -/
def setDocStore {α : Type} (store : Store α) (k : String) (v : α) : Store α :=
  if store.any (fun p => p.1 = k) then
    store.map (fun p => if p.1 = k then (k, v) else p)
  else
    store ++ [(k, v)]

/-- Firestore `addDoc(collection(db, coll), v)`: creates a document under a
fresh auto-generated id.  The fresh id is passed explicitly. -/
def addDocStore {α : Type} (store : Store α) (freshId : String) (v : α) :
    Store α :=
  store ++ [(freshId, v)]

/-- Document lookup by id. -/
def getDocStore {α : Type} (store : Store α) (k : String) : Option α :=
  match store with
  | [] => none
  | (k2, v) :: rest => if k2 = k then some v else getDocStore rest k

/-- The in-memory state of the first TakeExam variant that `handleSubmit`
reads and writes: the `submitting` flag guarding re-entry, the attempt data
captured in the component state, and the submissions collection. -/
structure AttemptV1 where
  examId : String
  uid : String
  exam : Exam
  answers : AnswerMap
  timeLeft : Nat
  flagged : List Int
  bookmarked : List Int
  submitting : Bool
  store : Store SubmissionV1

/-- The first variant's `handleSubmit`: `if (submitting) return;
setSubmitting(true); ...; await setDoc(doc(db, 'submissions',
uid_examId), submissionData)`.  The document id is the deterministic
`${uid}_${examId}` key. -/
def handleSubmitV1 (s : AttemptV1) : AttemptV1 :=
  if s.submitting then s
  else
    { s with
      submitting := true
      store := setDocStore s.store (s.uid ++ "_" ++ s.examId)
        (buildSubmissionV1 s.examId s.uid s.exam s.answers s.timeLeft
          s.flagged s.bookmarked) }

/-- The in-memory state of the second TakeExam variant used by its
`handleSubmit`; this variant keeps no `submitting` guard. -/
structure AttemptV2 where
  examId : String
  uid : String
  exam : Option Exam
  answers : List Int
  timeLeft : Nat
  bookmarked : List Nat
  flagged : List Nat
  attemptNumber : Nat
  store : Store SubmissionV2

/-- The second variant's `handleSubmit`: `if (!exam) return; ...;
await addDoc(collection(db, 'submissions'), submissionData)`.  Every
invocation with a loaded exam appends a fresh submission document —
there is no `submitting` guard. -/
def handleSubmitV2 (s : AttemptV2) (freshId : String) : AttemptV2 :=
  match s.exam with
  | none => s
  | some e =>
    { s with
      store := addDocStore s.store freshId
        (buildSubmissionV2 s.examId s.uid e s.answers s.timeLeft
          s.bookmarked s.flagged s.attemptNumber) }

/-- One firing of the countdown interval of either variant:
`setTimeLeft(prev => { if (prev <= 1) { clearInterval(timer);
handleTimeUp(); return 0 } return prev - 1 })`.  When the countdown fires
the time-up path, `handleSubmit` executes synchronously inside the updater,
before the update to `0` is applied and before any re-render, so the
`timeLeft` it reads is still the pre-tick value `prev`; `fireTimeUp`
carries that value. -/
inductive TickResult where
  | continueTick (next : Nat)
  | fireTimeUp (timeLeftRead : Nat)
  deriving DecidableEq

/-- The countdown step shared by both variants. -/
def timerTick (prev : Nat) : TickResult :=
  if prev ≤ 1 then .fireTimeUp prev else .continueTick (prev - 1)

/-- Outcome of the first variant's `fetchExam`: a missing exam redirects to
the dashboard; any existing exam is loaded into the attempt (this variant
performs no publication or prior-attempt check). -/
inductive FetchV1Result where
  | redirectDashboard
  | loaded (exam : Exam)
  deriving DecidableEq

/-- The first variant's `fetchExam` load logic:
`if (examDoc.exists()) { setExam(examData); ... } else { navigate('/dashboard') }`. -/
def fetchExamV1 (examDoc : Option Exam) : FetchV1Result :=
  match examDoc with
  | none => .redirectDashboard
  | some e => .loaded e

/-- Outcome of the second variant's `fetchExam`; the error constructors carry
the three user-facing error states set via `setError`. -/
inductive FetchV2Result where
  | errNotFound
  | errNotAvailable
  | errAlreadyAttempted
  | loaded (exam : Exam) (attemptNumber : Nat)
  deriving DecidableEq

/-- The second variant's `fetchExam` load logic: missing exam →
`'Exam not found'`; `!examData.isPublished` → `'This exam is not available'`;
`attempts > 0 && !examData.allowReattempts` →
`'You have already attempted this exam'`; otherwise the attempt starts with
`attemptNumber = attempts + 1`.  `priorAttempts` is the size of the
submissions query for this (exam, student) pair. -/
def fetchExamV2 (examDoc : Option Exam) (priorAttempts : Nat) : FetchV2Result :=
  match examDoc with
  | none => .errNotFound
  | some e =>
    if !e.isPublished then .errNotAvailable
    else if priorAttempts > 0 && !e.allowReattempts then .errAlreadyAttempted
    else .loaded e (priorAttempts + 1)

/-- JS `Array.prototype.findIndex`: index of the first element satisfying the
predicate, `-1` when none does. -/
def jsFindIndex {α : Type} (p : α → Bool) (l : List α) : Int :=
  match l.findIdx? p with
  | some i => (i : Int)
  | none => -1

/-- The `questionOrder` computed by the first variant's `fetchExam` under
`shuffleQuestions`: for each shuffled question, `originalIndex =
examData.questions.findIndex(origQ => origQ.question === q.question)` —
the original position is recovered by matching on the question text.
`shuffled` is the output of `shuffleArray(examData.questions)`, a
permutation of the question list (the shuffle utility itself is not under
src/; per the spec it produces a uniform random permutation, and the claims
quantify over every permutation).  Only the `originalIndex` components are
kept; the `shuffledIndex` component is the list position. -/
def questionOrderV1 (qs shuffled : List Question) : List Int :=
  shuffled.map (fun q => jsFindIndex (fun origQ => origQ.question == q.question) qs)

/-- The first variant's identity `questionOrder` when shuffling is off. -/
def questionOrderV1Id (qs : List Question) : List Int :=
  (List.range qs.length).map Int.ofNat

/-- The first variant's `handleAnswer`: `const originalIndex =
questionOrder[questionIndex].originalIndex; setAnswers({ ...answers,
[originalIndex]: answerIndex })`.  The presentation index is always in range
in the component (an out-of-range access would throw in JS). -/
def handleAnswerV1 (order : List Int) (am : AnswerMap) (questionIndex : Nat)
    (answerIndex : Int) : AnswerMap :=
  insertAnswer am (order.getD questionIndex (-1)) answerIndex

/-- The second variant's `questionOrder`: `shuffleArray([...Array(n).keys()])`
under `shuffleQuestions`, otherwise `[...Array(n).keys()]` — a permutation of
`0..n-1` holding, at each presentation position, the original index of the
question shown there. -/
def questionOrderV2Id (n : Nat) : List Nat :=
  List.range n

/-- The second variant's shuffled question list:
`order.map(index => questions[index])`. -/
def shuffledQuestionsV2 (qs : List Question) (order : List Nat) : List Question :=
  order.map (fun i => qs.getD i ⟨"", [], 0, 0, "", ""⟩)

/-- The second variant's `handleAnswer`: `newAnswers[questionOrder[questionIndex]]
= answerIndex` on a copy of the fixed-length answers array. -/
def handleAnswerV2 (order : List Nat) (ans : List Int) (questionIndex : Nat)
    (answerIndex : Int) : List Int :=
  ans.set (order.getD questionIndex 0) answerIndex

/-- `x || d` on a JS number that may be absent: `undefined`/`null` (`none`)
and the falsy number `0` fall back to the default `d`. -/
def jsOrNum (v : Option Int) (d : Int) : Int :=
  match v with
  | none => d
  | some x => if x = 0 then d else x

/-- The Passed/Failed classification shared verbatim by `MyResults`
(`result.score >= (result.exam.passingScore || 60) ? 'Passed' : 'Failed'`)
and by `ExamHistory`
(`history.score >= (history.exam.passingScore || 60) ? 'Passed' : 'Failed'`):
`true` renders as "Passed". -/
def passedLabel (score : Int) (passingScore : Option Int) : Bool :=
  decide (jsOrNum passingScore 60 ≤ score)

/-- An entry of a submission's `gradedQuestions` array reviewed in
`ViewSubmissions` (source field `type` holds `'objective'` or
`'subjective'`). -/
structure GradedQuestion where
  type : String
  score : Int
  maxPoints : Int
  deriving DecidableEq

/-- The `subjectiveGrades` JS object, keyed by question index; updates
prepend, lookups take the most recent binding. -/
abbrev GradeMap : Type := List (Nat × Int)

/-- Lookup `grades[i]`; `none` models `undefined`. -/
def lookupGrade (g : GradeMap) (i : Nat) : Option Int :=
  match g with
  | [] => none
  | (k, v) :: rest => if k = i then some v else lookupGrade rest i

/-- The object-spread update `{ ...prev, [questionIndex]: v }`. -/
def insertGrade (g : GradeMap) (i : Nat) (v : Int) : GradeMap :=
  (i, v) :: g

/-- `ViewSubmissions.handleGradeChange`: stores
`Math.min(Math.max(0, Number(score)),
selectedSubmission.gradedQuestions[questionIndex].maxPoints)` under the
question index.  The numeric input is modelled post-`Number(...)`
conversion; the question index is in range in the component. -/
def handleGradeChange (gradedQuestions : List GradedQuestion) (g : GradeMap)
    (questionIndex : Nat) (score : Int) : GradeMap :=
  insertGrade g questionIndex
    (min (max 0 score) ((gradedQuestions.getD questionIndex ⟨"", 0, 0⟩).maxPoints))

/-- `grades[index] || 0` inside `calculateFinalScore`. -/
def gradeOrZero (g : GradeMap) (i : Nat) : Int :=
  jsOrNum (lookupGrade g i) 0

/-- JS `Math.round` on an exact rational: round half toward positive
infinity, `⌊x + 1/2⌋`. -/
def jsRound (x : ℚ) : Int :=
  ⌊x + 1 / 2⌋

/-- The accumulation loop of `ViewSubmissions.calculateFinalScore`:
objective questions contribute their recorded `score`, subjective questions
the (defaulted) teacher grade; every question contributes `maxPoints` to the
total.  Returns `(totalScore, totalPoints)`. -/
def calcScoreLoop (g : GradeMap) : List GradedQuestion → Nat → Int × Int
  | [], _ => (0, 0)
  | q :: rest, i =>
    let r := calcScoreLoop g rest (i + 1)
    if q.type = "objective" then (q.score + r.1, q.maxPoints + r.2)
    else (gradeOrZero g i + r.1, q.maxPoints + r.2)

/-- `ViewSubmissions.calculateFinalScore`: `totalPoints > 0 ?
Math.round((totalScore / totalPoints) * 100) : 0` — the teacher-side
recomputation guards the zero-total case explicitly. -/
def calculateFinalScore (gradedQuestions : List GradedQuestion) (g : GradeMap) : Int :=
  let r := calcScoreLoop g gradedQuestions 0
  if 0 < r.2 then jsRound ((r.1 : ℚ) / (r.2 : ℚ) * 100) else 0

/-- A question of the `CreateExam` form state (`examData.questions`):
the text fields are the raw input strings; `correctAnswer`/`points` are
modelled post-`Number(...)` conversion. -/
structure QuestionDraft where
  question : String
  options : List String
  correctAnswer : Int
  points : Nat
  imageUrl : String
  explanation : String
  deriving DecidableEq

/-- The `CreateExam` form state (`examData`): `title`, `timeLimit` and
`passingScore` are the raw input strings (JS falsiness of a string is
emptiness). -/
structure ExamDraft where
  title : String
  description : String
  timeLimit : String
  passingScore : String
  category : String
  difficulty : String
  instructions : String
  isPublished : Bool
  shuffleQuestions : Bool
  allowReattempts : Bool
  questions : List QuestionDraft
  deriving DecidableEq

/-- The exam document written by `CreateExam.handleSubmit`
(`examToSubmit`); `timeLimit`/`passingScore` hold `Number(...)` of the raw
strings, supplied through the `toNum` conversion parameter. -/
structure ExamDoc where
  title : String
  description : String
  timeLimit : Int
  passingScore : Int
  instructions : String
  category : String
  difficulty : String
  isPublished : Bool
  shuffleQuestions : Bool
  allowReattempts : Bool
  questions : List Question
  totalPoints : Nat
  createdBy : String
  status : String
  deriving DecidableEq

/-- Outcome reported by `CreateExam.handleSubmit` to the caller: a
validation toast, or a successful creation. -/
inductive CreateExamOutcome where
  | validationErr (msg : String)
  | created
  deriving DecidableEq

/-- The per-question validation loop of `CreateExam.handleSubmit`
(`for (let i = 0; ...)`): the first question with blank (trimmed-empty) text
or some blank option yields its error message; `none` when all pass. -/
def firstQuestionError : List QuestionDraft → Nat → Option String
  | [], _ => none
  | q :: rest, i =>
    if q.question.trim = "" then
      some ("Question " ++ toString (i + 1) ++ " text is required")
    else if q.options.any (fun opt => opt.trim = "") then
      some ("All options in Question " ++ toString (i + 1) ++ " must be filled")
    else firstQuestionError rest (i + 1)

/-- The `processedQuestions` mapping of `CreateExam.handleSubmit`. -/
def processQuestion (q : QuestionDraft) : Question :=
  { question := q.question.trim
    options := q.options.map String.trim
    correctAnswer := q.correctAnswer
    points := q.points
    imageUrl := q.imageUrl.trim
    explanation := q.explanation.trim }

/-- `CreateExam.handleSubmit`: the validation checks run in source order
before any write — required fields (`!title || !timeLimit || !passingScore`),
non-empty question list, then the per-question loop; only when all pass is
`examToSubmit` assembled and `addDoc` performed on the exams collection.
Returns the outcome and the updated exams store. -/
def handleSubmitCreateExam (toNum : String → Int) (uid : String)
    (form : ExamDraft) (freshId : String) (store : Store ExamDoc) :
    CreateExamOutcome × Store ExamDoc :=
  if form.title = "" ∨ form.timeLimit = "" ∨ form.passingScore = "" then
    (.validationErr "Please fill in all required fields", store)
  else if form.questions.length = 0 then
    (.validationErr "Please add at least one question", store)
  else
    match firstQuestionError form.questions 0 with
    | some msg => (.validationErr msg, store)
    | none =>
      let processed := form.questions.map processQuestion
      let exam : ExamDoc :=
        { title := form.title.trim
          description := form.description.trim
          timeLimit := toNum form.timeLimit
          passingScore := toNum form.passingScore
          instructions := form.instructions.trim
          category := form.category
          difficulty := form.difficulty
          isPublished := form.isPublished
          shuffleQuestions := form.shuffleQuestions
          allowReattempts := form.allowReattempts
          questions := processed
          totalPoints := (processed.map Question.points).sum
          createdBy := uid
          status := "active" }
      (.created, addDocStore store freshId exam)

/-! Concrete fixtures used by witnesses and counterexamples. -/

/-- Spec scenario question worth 1 point, correct option 0. -/
def qFixA : Question := ⟨"q1", ["a", "b", "c"], 0, 1, "", ""⟩

/-- Spec scenario question worth 3 points, correct option 2. -/
def qFixB : Question := ⟨"q2", ["a", "b", "c"], 2, 3, "", ""⟩

/-- Spec-scenario exam: 2 questions worth 1 and 3 points, correct answers
`[0, 2]`. -/
def examFix : Exam := ⟨"Fixture", 30, 60, true, false, false, [qFixA, qFixB], "t1"⟩

/-- First of two questions sharing the text "dup" (correct option 0). -/
def dupQ0 : Question := ⟨"dup", ["a", "b"], 0, 1, "", ""⟩

/-- Second of two questions sharing the text "dup" (correct option 1). -/
def dupQ1 : Question := ⟨"dup", ["a", "b"], 1, 1, "", ""⟩

/-- A question worth zero points, for the degenerate `totalPoints == 0` exam. -/
def zeroQ : Question := ⟨"z", ["a", "b"], 0, 0, "", ""⟩

/-- An exam that exists but has `isPublished = false` and
`allowReattempts = false`. -/
def unpubExam : Exam := ⟨"Unpub", 30, 60, false, false, false, [qFixA], "t1"⟩

/-- A published exam with `allowReattempts = false`. -/
def pubNoReatt : Exam := ⟨"Pub", 30, 60, true, false, false, [qFixA], "t1"⟩

/-- A second-variant attempt state with a loaded exam and an empty
submissions store. -/
def attemptV2Fix : AttemptV2 :=
  { examId := "ex1", uid := "stu", exam := some examFix, answers := [0, 1]
    timeLeft := 100, bookmarked := [], flagged := [], attemptNumber := 1
    store := [] }

/-- A first-variant attempt state (first attempt, empty store, answers
`{0: 0, 1: 1}`). -/
def attemptV1FixA : AttemptV1 :=
  { examId := "ex1", uid := "stu", exam := examFix, answers := [(0, 0), (1, 1)]
    timeLeft := 100, flagged := [], bookmarked := [], submitting := false
    store := [] }

/-- A first-variant reattempt state with different answers (`{0: 1, 1: 2}`),
to be run against the store left by `attemptV1FixA`. -/
def attemptV1FixB : AttemptV1 :=
  { examId := "ex1", uid := "stu", exam := examFix, answers := [(0, 1), (1, 2)]
    timeLeft := 50, flagged := [], bookmarked := [], submitting := false
    store := [] }

/-- A subjective graded question with 10 max points. -/
def gqFix : GradedQuestion := ⟨"subjective", 0, 10⟩

/-- A form state with an empty (missing) title and otherwise valid fields. -/
def draftNoTitle : ExamDraft :=
  ⟨"", "", "10", "60", "general", "Medium", "", false, false, false,
    [⟨"What", ["a", "b"], 0, 1, "", ""⟩]⟩

/-! Helper lemmas. -/

theorem scoreLoopV1_eq_spec (am : AnswerMap) (qs : List Question) (i : Int) :
    scoreLoopV1 am qs i = (earnedFrom (lookupAnswer am) qs i, totalPointsSpec qs) := by
  induction qs generalizing i with
  | nil => rfl
  | cons q rest ih =>
    simp only [scoreLoopV1, earnedFrom, ih, totalPointsSpec, List.map_cons, List.sum_cons]

theorem earnedFrom_le_total (recorded : Int → Option Int) (qs : List Question) (i : Int) :
    earnedFrom recorded qs i ≤ totalPointsSpec qs := by
  induction qs generalizing i with
  | nil => exact Nat.le_refl 0
  | cons q rest ih =>
    simp only [earnedFrom, totalPointsSpec, List.map_cons, List.sum_cons]
    have h1 : (if recorded i = some q.correctAnswer then q.points else 0) ≤ q.points := by
      split <;> omega
    have h2 := ih (i + 1)
    simp only [totalPointsSpec] at h2
    omega

theorem roundPct_le_100 (s t : Nat) (hst : s ≤ t) (ht : 0 < t) :
    roundPct s t ≤ 100 := by
  unfold roundPct
  have h1 : 200 * s + t ≤ t + 2 * t * 100 := by nlinarith
  calc (200 * s + t) / (2 * t) ≤ (t + 2 * t * 100) / (2 * t) :=
        Nat.div_le_div_right h1
    _ = t / (2 * t) + 100 := Nat.add_mul_div_left t 100 (show 0 < 2 * t by omega)
    _ = 0 + 100 := by rw [Nat.div_eq_of_lt (by omega)]
    _ = 100 := by omega

theorem scoreLoopV2_eq_spec_aux (qs : List Question) (pre ans : List Int)
    (h : ans.length = qs.length) :
    scoreLoopV2 ans qs =
      (earnedFrom (recordedOfList (pre ++ ans)) qs (pre.length : Int),
       totalPointsSpec qs) := by
  induction qs generalizing pre ans with
  | nil =>
    cases ans with
    | nil => rfl
    | cons a as => simp at h
  | cons q rest ih =>
    cases ans with
    | nil => simp at h
    | cons a as =>
      have hlen : as.length = rest.length := by simpa using h
      have hrec : recordedOfList (pre ++ a :: as) (pre.length : Int) = some a := by
        simp only [recordedOfList, Int.toNat_natCast]
        rw [if_pos (Int.natCast_nonneg _)]
        rw [List.get?_append_right (Nat.le_refl _)]
        simp
      have hstep := ih (pre ++ [a]) as hlen
      have hidx : ((pre ++ [a]).length : Int) = (pre.length : Int) + 1 := by
        simp
      rw [hidx] at hstep
      have hassoc : (pre ++ [a]) ++ as = pre ++ a :: as := by simp
      rw [hassoc] at hstep
      simp only [scoreLoopV2, earnedFrom, hstep, totalPointsSpec, List.map_cons,
        List.sum_cons, hrec, Option.some.injEq]

theorem scoreLoopV2_eq_spec (ans : List Int) (qs : List Question)
    (h : ans.length = qs.length) :
    scoreLoopV2 ans qs =
      (earnedFrom (recordedOfList ans) qs 0, totalPointsSpec qs) := by
  have := scoreLoopV2_eq_spec_aux qs [] ans h
  simpa using this

theorem handleSubmitV1_submitting (s : AttemptV1) :
    (handleSubmitV1 s).submitting = true := by
  unfold handleSubmitV1
  split
  · assumption
  · rfl

theorem handleSubmitV1_of_submitting (s : AttemptV1) (h : s.submitting = true) :
    handleSubmitV1 s = s := by
  unfold handleSubmitV1
  rw [if_pos h]

theorem handleSubmitV1_idem (s : AttemptV1) :
    handleSubmitV1 (handleSubmitV1 s) = handleSubmitV1 s :=
  handleSubmitV1_of_submitting (handleSubmitV1 s) (handleSubmitV1_submitting s)

theorem handleSubmitV2_store (u : AttemptV2) (f : String) (eu : Exam)
    (heu : u.exam = some eu) :
    (handleSubmitV2 u f).store = addDocStore u.store f
      (buildSubmissionV2 u.examId u.uid eu u.answers u.timeLeft u.bookmarked
        u.flagged u.attemptNumber) := by
  unfold handleSubmitV2
  rw [heu]

theorem handleSubmitV2_exam (u : AttemptV2) (f : String) :
    (handleSubmitV2 u f).exam = u.exam := by
  unfold handleSubmitV2
  cases h : u.exam <;> simp [h]

theorem getDoc_map_replace {α : Type} (st : Store α) (k : String) (v : α)
    (h : st.any (fun p => p.1 = k) = true) :
    getDocStore (st.map (fun p => if p.1 = k then (k, v) else p)) k = some v := by
  induction st with
  | nil => simp at h
  | cons hd tl ih =>
    obtain ⟨k1, v1⟩ := hd
    by_cases hk : k1 = k
    · subst hk
      simp only [List.map_cons, eq_self_iff_true, if_true]
      simp [getDocStore]
    · have h2 : tl.any (fun p => p.1 = k) = true := by
        simpa [hk] using h
      simp only [List.map_cons]
      rw [if_neg hk]
      simp only [getDocStore]
      rw [if_neg hk]
      exact ih h2

theorem getDoc_append_fresh {α : Type} (st : Store α) (k : String) (v : α)
    (h : st.any (fun p => p.1 = k) = false) :
    getDocStore (st ++ [(k, v)]) k = some v := by
  induction st with
  | nil => simp [getDocStore]
  | cons hd tl ih =>
    obtain ⟨k1, v1⟩ := hd
    have hk : ¬ k1 = k := by
      intro hkk
      simp [hkk] at h
    have h2 : tl.any (fun p => p.1 = k) = false := by
      by_contra h3
      simp only [Bool.not_eq_false] at h3
      simp [h3] at h
    simp [getDocStore, hk, ih h2]

theorem getDoc_setDoc_same {α : Type} (st : Store α) (k : String) (v : α) :
    getDocStore (setDocStore st k v) k = some v := by
  unfold setDocStore
  by_cases h : st.any (fun p => p.1 = k) = true
  · rw [if_pos h]
    exact getDoc_map_replace st k v h
  · rw [if_neg h]
    have h2 : st.any (fun p => p.1 = k) = false := by
      cases hh : st.any (fun p => p.1 = k)
      · rfl
      · exact absurd hh h
    exact getDoc_append_fresh st k v h2

/-! Claim theorems. -/

/-- Claim C1: for every exam whose questions have positive total points and
every final answer state, the score stored in the submission written at
finalize equals `round(100 * earnedPoints / totalPoints)` — with
`earnedPoints` the sum of the points of exactly those questions whose
recorded answer (keyed by original question index) equals that question's
correct-answer index — and this score is an integer in `[0, 100]`, in both
TakeExam finalize paths. -/
theorem claimC1_finalize_score (examId uid : String) (exam : Exam)
    (am : AnswerMap) (ans : List Int) (timeLeft : Nat) (fl bm : List Int)
    (bm2 fl2 : List Nat) (attempt : Nat)
    (ht : 0 < totalPointsSpec exam.questions)
    (hlen : ans.length = exam.questions.length) :
    ∃ n1 n2 : Nat,
      (buildSubmissionV1 examId uid exam am timeLeft fl bm).score = some n1 ∧
      n1 = roundPct (earnedPointsSpec exam.questions (lookupAnswer am))
        (totalPointsSpec exam.questions) ∧
      n1 ≤ 100 ∧
      (buildSubmissionV2 examId uid exam ans timeLeft bm2 fl2 attempt).score = some n2 ∧
      n2 = roundPct (earnedPointsSpec exam.questions (recordedOfList ans))
        (totalPointsSpec exam.questions) ∧
      n2 ≤ 100 := by
  refine ⟨roundPct (earnedPointsSpec exam.questions (lookupAnswer am))
    (totalPointsSpec exam.questions),
    roundPct (earnedPointsSpec exam.questions (recordedOfList ans))
    (totalPointsSpec exam.questions), ?_, rfl, ?_, ?_, rfl, ?_⟩
  · show finalScoreV1 exam.questions am = _
    unfold finalScoreV1
    rw [scoreLoopV1_eq_spec]
    simp only [earnedPointsSpec]
    rw [if_neg (by omega)]
  · exact roundPct_le_100 _ _ (earnedFrom_le_total _ _ _) ht
  · show finalScoreV2 exam.questions ans = _
    unfold finalScoreV2
    rw [scoreLoopV2_eq_spec ans exam.questions hlen]
    simp only [earnedPointsSpec]
    rw [if_neg (by omega)]
  · exact roundPct_le_100 _ _ (earnedFrom_le_total _ _ _) ht

/-- Witness for C1 at the spec's concrete scenario: 2 questions worth 1 and
3 points, correct answers `[0, 2]`, student answers `[0, 1]` →
earnedPoints 1, totalPoints 4, score 25, in both variants. -/
theorem claimC1_finalize_score_witness :
    0 < totalPointsSpec examFix.questions ∧
    ([0, 1] : List Int).length = examFix.questions.length ∧
    (∃ n1 n2 : Nat,
      (buildSubmissionV1 "ex1" "stu" examFix [(0, 0), (1, 1)] 100 [] []).score = some n1 ∧
      n1 = roundPct (earnedPointsSpec examFix.questions (lookupAnswer [(0, 0), (1, 1)]))
        (totalPointsSpec examFix.questions) ∧
      n1 ≤ 100 ∧
      (buildSubmissionV2 "ex1" "stu" examFix [0, 1] 100 [] [] 1).score = some n2 ∧
      n2 = roundPct (earnedPointsSpec examFix.questions (recordedOfList [0, 1]))
        (totalPointsSpec examFix.questions) ∧
      n2 ≤ 100) ∧
    (buildSubmissionV1 "ex1" "stu" examFix [(0, 0), (1, 1)] 100 [] []).score = some 25 ∧
    (buildSubmissionV2 "ex1" "stu" examFix [0, 1] 100 [] [] 1).score = some 25 :=
  ⟨by decide, by decide,
    claimC1_finalize_score "ex1" "stu" examFix [(0, 0), (1, 1)] [0, 1] 100 [] [] [] [] 1
      (by decide) (by decide),
    by decide, by decide⟩

/-- Claim C2 (code bug): under shuffling, the first TakeExam variant recovers
the original index of a shuffled question by `findIndex` on the question
TEXT, so for an exam containing two questions with identical text the answer
is recorded under the wrong original index and grading is corrupted.  At the
failing input — questions `[dupQ0, dupQ1]` both titled "dup" (worth 1 point
each, correct options 0 and 1), permutation swapping them — picking option 1
while viewing presentation position 0 (which shows `dupQ1`, original
index 1) is recorded under original index 0, original index 1 stays
unanswered, and the final score is 0 where the transparent relabeling
demanded by the claim yields 50 (as the second variant, which permutes
indices instead of matching text, does). -/
theorem claimC2_shuffle_text_collision :
    questionOrderV1 [dupQ0, dupQ1] [dupQ1, dupQ0] = [0, 0] ∧
    handleAnswerV1 (questionOrderV1 [dupQ0, dupQ1] [dupQ1, dupQ0]) [] 0 1 = [(0, 1)] ∧
    lookupAnswer (handleAnswerV1 (questionOrderV1 [dupQ0, dupQ1] [dupQ1, dupQ0]) [] 0 1) 1
      = none ∧
    finalScoreV1 [dupQ0, dupQ1]
      (handleAnswerV1 (questionOrderV1 [dupQ0, dupQ1] [dupQ1, dupQ0]) [] 0 1) = some 0 ∧
    finalScoreV1 [dupQ0, dupQ1] (insertAnswer [] 1 1) = some 50 ∧
    handleAnswerV2 [1, 0] [-1, -1] 0 1 = [-1, 1] ∧
    finalScoreV2 [dupQ0, dupQ1] (handleAnswerV2 [1, 0] [-1, -1] 0 1) = some 50 := by
  decide

/-- Counterexample for C3: for an exam whose questions sum to zero points,
both TakeExam finalize paths evaluate `Math.round((score / 0) * 100)` — a
non-numeric result (`none`), not the score 0 the claim states; only the
teacher-side `calculateFinalScore` yields 0. -/
theorem claimC3_counterexample :
    totalPointsSpec [zeroQ] = 0 ∧
    finalScoreV1 [zeroQ] [] ≠ some 0 ∧
    finalScoreV1 [zeroQ] [] = none ∧
    finalScoreV2 [zeroQ] [-1] ≠ some 0 ∧
    finalScoreV2 [zeroQ] [-1] = none ∧
    calculateFinalScore [⟨"subjective", 0, 0⟩] [] = 0 := by
  decide

/-- Claim C3 as amended: when total points are zero, the teacher-side
`calculateFinalScore` guards the division and returns 0, while both TakeExam
finalize paths perform the unguarded `0 / 0` and produce no numeric score
(`none`, modelling NaN) rather than 0. -/
theorem claimC3_zero_total_points (qs : List Question) (am : AnswerMap)
    (ans : List Int) (gqs : List GradedQuestion) (g : GradeMap)
    (ht : totalPointsSpec qs = 0) (hlen : ans.length = qs.length)
    (htg : (calcScoreLoop g gqs 0).2 = 0) :
    finalScoreV1 qs am = none ∧ finalScoreV2 qs ans = none ∧
    calculateFinalScore gqs g = 0 := by
  refine ⟨?_, ?_, ?_⟩
  · unfold finalScoreV1
    rw [scoreLoopV1_eq_spec]
    simp [ht]
  · unfold finalScoreV2
    rw [scoreLoopV2_eq_spec ans qs hlen]
    simp [ht]
  · unfold calculateFinalScore
    simp only [htg]
    simp

/-- Witness for the amended C3 at a one-question exam worth zero points. -/
theorem claimC3_zero_total_points_witness :
    totalPointsSpec [zeroQ] = 0 ∧
    ([-1] : List Int).length = [zeroQ].length ∧
    (calcScoreLoop [] [(⟨"subjective", 0, 0⟩ : GradedQuestion)] 0).2 = 0 ∧
    (finalScoreV1 [zeroQ] [(0, 0)] = none ∧ finalScoreV2 [zeroQ] [-1] = none ∧
      calculateFinalScore [(⟨"subjective", 0, 0⟩ : GradedQuestion)] [] = 0) :=
  ⟨by decide, by decide, by decide,
    claimC3_zero_total_points [zeroQ] [(0, 0)] [-1]
      [(⟨"subjective", 0, 0⟩ : GradedQuestion)] [] (by decide) (by decide) (by decide)⟩

/-- Counterexample for C4: the second TakeExam variant's `handleSubmit` has
no guard at all, so when an explicit confirmed submit (or a re-fired
handler) follows the expiry submission before the state transition lands,
a second submission document is written — two writes for one attempt,
refuting "exactly one Submission write is triggered — never more — ... in
both TakeExam variants". -/
theorem claimC4_counterexample :
    (handleSubmitV2 (handleSubmitV2 attemptV2Fix "id1") "id2").store.length = 2 ∧
    (handleSubmitV2 (handleSubmitV2 attemptV2Fix "id1") "id2").store.length ≠ 1 := by
  decide

/-- Claim C4 as amended: in the first variant the `submitting` guard makes
finalization one-shot — any number of further invocations after the first
leave the state (and in particular the submissions store) exactly as after
the single write — while in the second variant every invocation of
`handleSubmit` with a loaded exam appends one more submission document, so
a handler that fires `k + 1` times writes `k + 1` documents. -/
theorem claimC4_submit_guard (s : AttemptV1) (n : Nat) (t : AttemptV2)
    (e : Exam) (f1 f2 : String) (he : t.exam = some e) :
    handleSubmitV1^[n + 1] s = handleSubmitV1 s ∧
    (handleSubmitV2 (handleSubmitV2 t f1) f2).store.length = t.store.length + 2 := by
  constructor
  · induction n with
    | zero => rfl
    | succ k ih =>
      have hstep : handleSubmitV1^[k + 1 + 1] s =
          handleSubmitV1 (handleSubmitV1^[k + 1] s) :=
        Function.iterate_succ_apply' handleSubmitV1 (k + 1) s
      rw [hstep, ih, handleSubmitV1_idem]
  · have h2 : (handleSubmitV2 t f1).exam = some e := by
      rw [handleSubmitV2_exam, he]
    rw [handleSubmitV2_store (handleSubmitV2 t f1) f2 e h2,
      handleSubmitV2_store t f1 e he]
    simp [addDocStore]

/-- Witness for the amended C4: three invocations of the first variant's
guarded submit equal one, and two invocations of the second variant's
unguarded submit append two documents. -/
theorem claimC4_submit_guard_witness :
    attemptV2Fix.exam = some examFix ∧
    (handleSubmitV1^[3] attemptV1FixA = handleSubmitV1 attemptV1FixA ∧
      (handleSubmitV2 (handleSubmitV2 attemptV2Fix "id1") "id2").store.length =
        attemptV2Fix.store.length + 2) :=
  ⟨by decide,
    claimC4_submit_guard attemptV1FixA 2 attemptV2Fix examFix "id1" "id2" (by decide)⟩

/-- Counterexample for C5: the first TakeExam variant checks only that the
exam document exists — an existing exam with `isPublished = false` (and
`allowReattempts = false`) is loaded straight into the attempt instead of
failing with NotPublished, refuting the claim for that variant. -/
theorem claimC5_counterexample :
    unpubExam.isPublished = false ∧
    fetchExamV1 (some unpubExam) = .loaded unpubExam := by
  decide

/-- Claim C5 as amended: the second variant's load fails NotFound on a
missing exam, NotPublished (`'This exam is not available'`) on an
unpublished exam, AlreadyAttempted on a prior submission with reattempts
disallowed, and otherwise enters the attempt; the first variant checks only
existence — a missing exam redirects to the dashboard and any existing exam
is loaded, with no publication or prior-attempt check. -/
theorem claimC5_load_checks (e : Exam) (atts : Nat) :
    fetchExamV2 none atts = .errNotFound ∧
    (e.isPublished = false → fetchExamV2 (some e) atts = .errNotAvailable) ∧
    (e.isPublished = true → 0 < atts → e.allowReattempts = false →
      fetchExamV2 (some e) atts = .errAlreadyAttempted) ∧
    (e.isPublished = true → (atts = 0 ∨ e.allowReattempts = true) →
      fetchExamV2 (some e) atts = .loaded e (atts + 1)) ∧
    fetchExamV1 none = .redirectDashboard ∧
    fetchExamV1 (some e) = .loaded e := by
  refine ⟨rfl, ?_, ?_, ?_, rfl, rfl⟩
  · intro hp
    simp [fetchExamV2, hp]
  · intro hp hatt hre
    simp [fetchExamV2, hp, hre, hatt]
  · intro hp hre
    rcases hre with h0 | hall
    · subst h0
      simp [fetchExamV2, hp]
    · simp [fetchExamV2, hp, hall]

/-- Witness for the amended C5 on the three rejection outcomes and a
successful load. -/
theorem claimC5_load_checks_witness :
    fetchExamV2 (some unpubExam) 0 = .errNotAvailable ∧
    fetchExamV2 (some pubNoReatt) 1 = .errAlreadyAttempted ∧
    fetchExamV2 (some pubNoReatt) 0 = .loaded pubNoReatt 1 ∧
    fetchExamV2 none 0 = .errNotFound :=
  ⟨(claimC5_load_checks unpubExam 0).2.1 (by decide),
    (claimC5_load_checks pubNoReatt 1).2.2.1 (by decide) (by decide) (by decide),
    (claimC5_load_checks pubNoReatt 0).2.2.2.1 (by decide) (Or.inl rfl),
    (claimC5_load_checks pubNoReatt 0).1⟩

/-- Counterexample for C6: in the first TakeExam variant the submission is
written with `setDoc` under the deterministic id `${uid}_${examId}`, so a
reattempt by the same student at the same exam overwrites the previous
submission instead of creating a new document: after the second attempt the
store still holds exactly one document under that key, and it is no longer
the one of the first attempt. -/
theorem claimC6_counterexample :
    (handleSubmitV1 attemptV1FixA).store.length = 1 ∧
    (handleSubmitV1
      { attemptV1FixB with store := (handleSubmitV1 attemptV1FixA).store }).store.length = 1 ∧
    getDocStore (handleSubmitV1
        { attemptV1FixB with store := (handleSubmitV1 attemptV1FixA).store }).store "stu_ex1" ≠
      getDocStore (handleSubmitV1 attemptV1FixA).store "stu_ex1" := by
  decide

/-- Claim C6 as amended: the second variant's `addDoc` write creates a fresh
document per attempt and leaves every previously created submission
document untouched; the first variant's `setDoc` write targets the
deterministic id `${uid}_${examId}`, so after any submit the document stored
under that key is the newly built submission — a reattempt replaces, rather
than preserves, the prior attempt's document. -/
theorem claimC6_submission_immutability (t : AttemptV2) (e : Exam) (f : String)
    (he : t.exam = some e) (s : AttemptV1) (hs : s.submitting = false) :
    (handleSubmitV2 t f).store.take t.store.length = t.store ∧
    (handleSubmitV2 t f).store.length = t.store.length + 1 ∧
    getDocStore (handleSubmitV1 s).store (s.uid ++ "_" ++ s.examId) =
      some (buildSubmissionV1 s.examId s.uid s.exam s.answers s.timeLeft
        s.flagged s.bookmarked) := by
  refine ⟨?_, ?_, ?_⟩
  · rw [handleSubmitV2_store t f e he]
    unfold addDocStore
    exact List.take_left t.store _
  · rw [handleSubmitV2_store t f e he]
    simp [addDocStore]
  · have hw : (handleSubmitV1 s).store = setDocStore s.store (s.uid ++ "_" ++ s.examId)
        (buildSubmissionV1 s.examId s.uid s.exam s.answers s.timeLeft
          s.flagged s.bookmarked) := by
      unfold handleSubmitV1
      rw [if_neg (by simp [hs])]
    rw [hw]
    exact getDoc_setDoc_same _ _ _

/-- Witness for the amended C6 at concrete attempt states. -/
theorem claimC6_submission_immutability_witness :
    attemptV2Fix.exam = some examFix ∧ attemptV1FixA.submitting = false ∧
    ((handleSubmitV2 attemptV2Fix "f1").store.take attemptV2Fix.store.length =
        attemptV2Fix.store ∧
      (handleSubmitV2 attemptV2Fix "f1").store.length = attemptV2Fix.store.length + 1 ∧
      getDocStore (handleSubmitV1 attemptV1FixA).store
          (attemptV1FixA.uid ++ "_" ++ attemptV1FixA.examId) =
        some (buildSubmissionV1 attemptV1FixA.examId attemptV1FixA.uid
          attemptV1FixA.exam attemptV1FixA.answers attemptV1FixA.timeLeft
          attemptV1FixA.flagged attemptV1FixA.bookmarked)) :=
  ⟨by decide, by decide,
    claimC6_submission_immutability attemptV2Fix examFix "f1" (by decide)
      attemptV1FixA (by decide)⟩

/-- Claim C7 (code bug): the submission written on the timer-expiry path
does NOT carry `isAutoSubmitted = true`.  The countdown fires the time-up
path at `prev = 1` (`if (prev <= 1) { clearInterval(timer); handleTimeUp();
return 0 }`), and `handleSubmit` builds `submissionData` synchronously
before the update to 0 is applied, so it computes `isAutoSubmitted:
timeLeft === 0` with `timeLeft` still 1 — storing `false` on the very path
the flag is meant to mark (the flag would be `true` only if the handler
could read `timeLeft = 0`, which the expiry tick never provides; the
explicit-submit half of the claim, `false` before expiry, is what the code
actually stores on every path). -/
theorem claimC7_autosubmit_flag :
    timerTick 1 = .fireTimeUp 1 ∧
    timerTick 2 = .continueTick 1 ∧
    (buildSubmissionV1 "ex1" "stu" examFix [(0, 0), (1, 1)] 1 [] []).isAutoSubmitted
      = false ∧
    (buildSubmissionV1 "ex1" "stu" examFix [(0, 0), (1, 1)] 0 [] []).isAutoSubmitted
      = true := by
  decide

/-- Counterexample for C8: the classification reads
`score >= (passingScore || 60)`, and `||` treats the present passing score 0
as falsy — a submission with score 0 against a passing score of 0 satisfies
`score >= passingScore` but is classified Failed (against the default 60),
refuting the claim for present passing score 0. -/
theorem claimC8_counterexample :
    passedLabel 0 (some 0) = false ∧ (0 : Int) ≤ 0 := by
  decide

/-- Claim C8 as amended: for every submission whose exam's passing score is
present and nonzero, the classification is Passed exactly when
`score >= passingScore` — the boundary inclusive (60 against 60 is Passed,
59 is Failed); a present passing score of 0 is JS-falsy and is replaced by
the default 60. -/
theorem claimC8_passing_boundary (score ps : Int) (hps : ps ≠ 0) :
    (passedLabel score (some ps) = true ↔ ps ≤ score) ∧
    passedLabel 60 (some 60) = true ∧
    passedLabel 59 (some 60) = false := by
  refine ⟨?_, by decide, by decide⟩
  unfold passedLabel jsOrNum
  simp only [if_neg hps]
  exact decide_eq_true_iff

/-- Witness for the amended C8 at the spec's boundary scenario. -/
theorem claimC8_passing_boundary_witness :
    (60 : Int) ≠ 0 ∧
    ((passedLabel 60 (some 60) = true ↔ (60 : Int) ≤ 60) ∧
      passedLabel 60 (some 60) = true ∧ passedLabel 59 (some 60) = false) :=
  ⟨by decide, claimC8_passing_boundary 60 60 (by decide)⟩

theorem firstQuestionError_some (qs : List QuestionDraft) (i : Nat)
    (h : ∃ q ∈ qs, q.question.trim = "" ∨ ∃ o ∈ q.options, o.trim = "") :
    ∃ msg, firstQuestionError qs i = some msg := by
  induction qs generalizing i with
  | nil => simp at h
  | cons q rest ih =>
    by_cases h1 : q.question.trim = ""
    · refine ⟨"Question " ++ toString (i + 1) ++ " text is required", ?_⟩
      unfold firstQuestionError
      rw [if_pos h1]
    · by_cases h2 : q.options.any (fun opt => opt.trim = "") = true
      · refine ⟨"All options in Question " ++ toString (i + 1) ++ " must be filled", ?_⟩
        unfold firstQuestionError
        rw [if_neg h1, if_pos h2]
      · obtain ⟨qb, hqb, hbad⟩ := h
        rcases List.mem_cons.mp hqb with heq | hmem
        · exfalso
          subst heq
          rcases hbad with hb | ⟨o, ho, hot⟩
          · exact h1 hb
          · exact h2 (List.any_eq_true.mpr ⟨o, ho, by simp [hot]⟩)
        · obtain ⟨msg, hmsg⟩ := ih (i + 1) ⟨qb, hmem, hbad⟩
          refine ⟨msg, ?_⟩
          unfold firstQuestionError
          rw [if_neg h1, if_neg h2]
          exact hmsg

/-- Claim C9: exam authoring reports a validation error and writes no
document whenever the title, time limit, or passing score is missing
(empty), the question list is empty, some question's text is blank, or some
option of some question is blank — all checks run before any write, so for
every such invalid form the exams store is unchanged. -/
theorem claimC9_authoring_validation (toNum : String → Int) (uid : String)
    (form : ExamDraft) (freshId : String) (store : Store ExamDoc)
    (hinv : form.title = "" ∨ form.timeLimit = "" ∨ form.passingScore = "" ∨
      form.questions = [] ∨
      ∃ q ∈ form.questions, q.question.trim = "" ∨ ∃ o ∈ q.options, o.trim = "") :
    (∃ msg, (handleSubmitCreateExam toNum uid form freshId store).1 =
      .validationErr msg) ∧
    (handleSubmitCreateExam toNum uid form freshId store).2 = store := by
  unfold handleSubmitCreateExam
  by_cases hreq : form.title = "" ∨ form.timeLimit = "" ∨ form.passingScore = ""
  · rw [if_pos hreq]
    exact ⟨⟨_, rfl⟩, rfl⟩
  · rw [if_neg hreq]
    by_cases hq : form.questions.length = 0
    · rw [if_pos hq]
      exact ⟨⟨_, rfl⟩, rfl⟩
    · rw [if_neg hq]
      have hbad : ∃ q ∈ form.questions,
          q.question.trim = "" ∨ ∃ o ∈ q.options, o.trim = "" := by
        rcases hinv with h | h | h | h | h
        · exact absurd (Or.inl h) hreq
        · exact absurd (Or.inr (Or.inl h)) hreq
        · exact absurd (Or.inr (Or.inr h)) hreq
        · exact absurd (by simp [h]) hq
        · exact h
      obtain ⟨msg, hmsg⟩ := firstQuestionError_some form.questions 0 hbad
      rw [hmsg]
      exact ⟨⟨msg, rfl⟩, rfl⟩

/-- Witness for C9: a form with an empty title (and otherwise valid fields)
is rejected with a validation error and the store stays empty. -/
theorem claimC9_authoring_validation_witness :
    (draftNoTitle.title = "" ∨ draftNoTitle.timeLimit = "" ∨
      draftNoTitle.passingScore = "" ∨ draftNoTitle.questions = [] ∨
      ∃ q ∈ draftNoTitle.questions,
        q.question.trim = "" ∨ ∃ o ∈ q.options, o.trim = "") ∧
    ((∃ msg, (handleSubmitCreateExam (fun _ => 0) "t1" draftNoTitle "f1" []).1 =
        .validationErr msg) ∧
      (handleSubmitCreateExam (fun _ => 0) "t1" draftNoTitle "f1" []).2 = []) ∧
    (handleSubmitCreateExam (fun _ => 0) "t1" draftNoTitle "f1" []).1 =
      .validationErr "Please fill in all required fields" :=
  ⟨Or.inl rfl,
    claimC9_authoring_validation (fun _ => 0) "t1" draftNoTitle "f1" [] (Or.inl rfl),
    by decide⟩

/-- Claim C10: each teacher edit of a subjective grade stores the value
clamped to `[0, maxPoints]` of the edited question: the stored value is
`min(max(0, input), maxPoints)`, which lies in the closed interval, equals 0
for negative input and equals `maxPoints` for input above it. -/
theorem claimC10_grade_clamped (gqs : List GradedQuestion) (g : GradeMap)
    (i : Nat) (score : Int) (h : i < gqs.length)
    (hmax : 0 ≤ (gqs.get ⟨i, h⟩).maxPoints) :
    lookupGrade (handleGradeChange gqs g i score) i =
      some (min (max 0 score) ((gqs.get ⟨i, h⟩).maxPoints)) ∧
    0 ≤ min (max 0 score) ((gqs.get ⟨i, h⟩).maxPoints) ∧
    min (max 0 score) ((gqs.get ⟨i, h⟩).maxPoints) ≤ (gqs.get ⟨i, h⟩).maxPoints ∧
    (score < 0 → min (max 0 score) ((gqs.get ⟨i, h⟩).maxPoints) = 0) ∧
    ((gqs.get ⟨i, h⟩).maxPoints < score →
      min (max 0 score) ((gqs.get ⟨i, h⟩).maxPoints) = (gqs.get ⟨i, h⟩).maxPoints) := by
  have hgd : gqs.getD i ⟨"", 0, 0⟩ = gqs.get ⟨i, h⟩ := by
    rw [List.getD_eq_get?, List.get?_eq_get h]
    rfl
  refine ⟨?_, ?_, min_le_right _ _, ?_, ?_⟩
  · unfold handleGradeChange
    rw [hgd]
    simp [lookupGrade, insertGrade]
  · exact le_min (le_max_left 0 score) hmax
  · intro hneg
    rw [max_eq_left (le_of_lt hneg), min_eq_left hmax]
  · intro habove
    rw [max_eq_right (le_of_lt (lt_of_le_of_lt hmax habove)),
      min_eq_right (le_of_lt habove)]

/-- Witness for C10: a negative input of -5 against a 10-point question is
stored as 0. -/
theorem claimC10_grade_clamped_witness :
    (0 : Nat) < [gqFix].length ∧
    (0 : Int) ≤ ([gqFix].get ⟨0, Nat.zero_lt_one⟩).maxPoints ∧
    (lookupGrade (handleGradeChange [gqFix] [] 0 (-5)) 0 =
        some (min (max 0 (-5)) (([gqFix].get ⟨0, Nat.zero_lt_one⟩).maxPoints)) ∧
      0 ≤ min (max 0 (-5)) (([gqFix].get ⟨0, Nat.zero_lt_one⟩).maxPoints) ∧
      min (max 0 (-5)) (([gqFix].get ⟨0, Nat.zero_lt_one⟩).maxPoints) ≤
        ([gqFix].get ⟨0, Nat.zero_lt_one⟩).maxPoints ∧
      ((-5 : Int) < 0 → min (max 0 (-5)) (([gqFix].get ⟨0, Nat.zero_lt_one⟩).maxPoints) = 0) ∧
      (([gqFix].get ⟨0, Nat.zero_lt_one⟩).maxPoints < -5 →
        min (max 0 (-5)) (([gqFix].get ⟨0, Nat.zero_lt_one⟩).maxPoints) =
          ([gqFix].get ⟨0, Nat.zero_lt_one⟩).maxPoints)) ∧
    lookupGrade (handleGradeChange [gqFix] [] 0 (-5)) 0 = some 0 ∧
    lookupGrade (handleGradeChange [gqFix] [] 0 99) 0 = some 10 :=
  ⟨Nat.zero_lt_one, by decide,
    claimC10_grade_clamped [gqFix] [] 0 (-5) Nat.zero_lt_one (by decide),
    by decide, by decide⟩

end ExamPortal
